import Mathlib

set_option maxHeartbeats 1000000

/-!
Shallow embedding of `homework.py` (Reagent992/homework_bot).

The program is a polling Telegram bot: each cycle it queries a homework
API, validates the response (`check_response`), formats a status message
(`parse_status`), and sends notifications (`send_message`), deduplicating
both status messages and error messages; every cycle ends with a fixed
sleep (`RETRY_PERIOD`).

JSON values decoded from the API body are modelled by `JValue`; Python
truthiness by `truthy`; `dict.get` (returning `None` on a missing key) by
`dictGet` with `jnull` for "absent or None", exactly as the source cannot
distinguish the two.  Exceptions are modelled with `Except` inside a
cycle, caught by the loop's `except Exception` clause (`catchClause`).
The network and the Telegram delivery are oracles: each cycle consumes an
`HttpOutcome`, and `send_message` consumes a `DeliveryOutcome`.
-/

/-- JSON-like values as decoded by `response.json()` in `get_api_answer`. -/
inductive JValue where
  | jnull
  | jint (n : Int)
  | jstr (s : String)
  | jlist (items : List JValue)
  | jdict (fields : List (String × JValue))

/-- Python truthiness (`if x:`) for the values of `JValue`. -/
def truthy : JValue → Bool
  | .jnull => false
  | .jint n => n != 0
  | .jstr s => !s.isEmpty
  | .jlist items => !items.isEmpty
  | .jdict fields => !fields.isEmpty

/-- Python `d.get(key)`: the value when the key is present, else `None`
(`jnull`).  Keys of a Python dict are unique, so `find?` is exact. -/
def dictGet (fields : List (String × JValue)) (key : String) : JValue :=
  match fields.find? (fun p => p.1 == key) with
  | some p => p.2
  | none => .jnull

/-- Python `d[key]` on a dict.  In the source every bracket access is
reached only after the key was checked present, so the `jnull` default for
the unreachable cases is never exercised. -/
def bracketGet (v : JValue) (key : String) : JValue :=
  match v with
  | .jdict fields => dictGet fields key
  | _ => .jnull

/-- Python `str(x)` as used by the f-string in `parse_status`.  The scalar
cases, the only ones reached by the claims, are exact; the container
renderings abbreviate CPython's `str`. -/
def jrender : JValue → String
  | .jnull => "None"
  | .jint n => toString n
  | .jstr s => s
  | .jlist _ => "[...]"
  | .jdict _ => "{...}"

/-- Python type name of a value, used in `AttributeError` texts. -/
def pyTypeName : JValue → String
  | .jnull => "NoneType"
  | .jint _ => "int"
  | .jstr _ => "str"
  | .jlist _ => "list"
  | .jdict _ => "dict"

/-- Wrap a string in single quotes, as `str()` of a `KeyError` and the
`AttributeError` texts do. -/
def pyQuoted (m : String) : String := "'" ++ m ++ "'"

/-- `RETRY_PERIOD = 600` — the fixed sleep between cycles. -/
def RETRY_PERIOD : Nat := 600

/-- `HOMEWORK_VERDICTS` — the fixed verdict table of the source. -/
def HOMEWORK_VERDICTS : List (String × String) :=
  [("approved", "Работа проверена: ревьюеру всё понравилось. Ура!"),
   ("reviewing", "Работа взята на проверку ревьюером."),
   ("rejected", "Работа проверена: у ревьюера есть замечания.")]

/-- Key lookup in `HOMEWORK_VERDICTS` (`HOMEWORK_VERDICTS[homework_status]`). -/
def verdictLookup (code : String) : Option String :=
  (HOMEWORK_VERDICTS.find? (fun p => p.1 == code)).map (fun p => p.2)

/-- The errors `check_response` can raise. -/
inductive CheckError where
  | notADict        -- TypeError: ответ не словарь
  | missingCursor   -- KeyError: нехватает ключа current_date
  | badHomeworks    -- TypeError: нет ключа homeworks или не list

/-- The errors `parse_status` can raise.  `attrError` is the
`AttributeError` the interpreter raises when `.get` is called on a
non-dict homework value. -/
inductive ParseError where
  | unknownVerdict  -- ValueError: Неожиданный статус домашки
  | badKeys         -- KeyError: Неверные ключи в словаре домашки
  | attrError (typeName : String)

/-- The errors `get_api_answer` can raise: the explicit
`HttpCodeIsNot200`, the re-raised `requests.JSONDecodeError`, and any
`requests` exception escaping `requests.get` (not caught by the narrow
`except requests.JSONDecodeError`). -/
inductive ApiError where
  | httpNot200
  | jsonDecode
  | requestsError (errText : String)

/-- One cycle's network oracle: either `requests.get` raises, or it
returns a response with a status code and a body that decodes to a
`JValue` or fails to decode. -/
inductive HttpOutcome where
  | raised (errText : String)
  | response (status_code : Nat) (body : Except Unit JValue)

/-- `get_api_answer`: raise `HttpCodeIsNot200` on a non-200 status,
re-raise on JSON decode failure, otherwise return the decoded body.  The
timestamp argument only feeds the request parameters (recorded separately
as an `Effect.request`). -/
def get_api_answer (_from_date : JValue) (w : HttpOutcome) : Except ApiError JValue :=
  match w with
  | .raised e => .error (.requestsError e)
  | .response status_code body =>
    if status_code != 200 then .error .httpNot200
    else
      match body with
      | .ok v => .ok v
      | .error _ => .error .jsonDecode

/-- `check_response`: require a dict; require a truthy `current_date`
(the source tests `not response.get('current_date')`, i.e. truthiness,
not presence); require `homeworks` to be a list (absent — i.e. `None` —
fails the `isinstance` arm and raises); return the first homework if the
list is non-empty, else `None`. -/
def check_response (response : JValue) : Except CheckError (Option JValue) :=
  match response with
  | .jdict fields =>
    if !truthy (dictGet fields "current_date") then
      .error .missingCursor
    else
      match dictGet fields "homeworks" with
      | .jlist (h :: _) => .ok (some h)
      | .jlist [] => .ok none
      | _ => .error .badHomeworks
  | _ => .error .notADict

/-- The message `parse_status` builds:
`f'Изменился статус проверки работы "{homework_name}". {verdict}'`. -/
def fmtMessage (nameText verdict : String) : String :=
  "Изменился статус проверки работы \"" ++ nameText ++ "\". " ++ verdict

/-- `parse_status`: require truthy `homework_name` and `status` (else
KeyError), require `status` to be a key of `HOMEWORK_VERDICTS` (else
ValueError; a non-string status is never a key), and return the formatted
message.  Calling `.get` on a non-dict raises `AttributeError`. -/
def parse_status (homework : JValue) : Except ParseError String :=
  match homework with
  | .jdict fields =>
    let homework_name := dictGet fields "homework_name"
    let homework_status := dictGet fields "status"
    if truthy homework_name && truthy homework_status then
      match homework_status with
      | .jstr code =>
        match verdictLookup code with
        | some verdict => .ok (fmtMessage (jrender homework_name) verdict)
        | none => .error .unknownVerdict
      | _ => .error .unknownVerdict
    else
      .error .badKeys
  | other => .error (.attrError (pyTypeName other))

/-- Python `str(error)` for a `get_api_answer` error.  `jsonDecode`
abbreviates the interpreter's rendering of the re-raised
`JSONDecodeError`; no claim depends on its exact text. -/
def apiErrText : ApiError → String
  | .httpNot200 => "Неподходящий http ответ"
  | .jsonDecode => "Ошибка при десериализации JSON"
  | .requestsError e => e

/-- Python `str(error)` for a `check_response` error; `str()` of a
`KeyError` shows the repr of its argument, hence the quotes. -/
def checkErrText : CheckError → String
  | .notADict => "Ответ API не является словарем"
  | .missingCursor => pyQuoted "В ответе API нехватает ключа current_date"
  | .badHomeworks =>
      "Неверный ответ API, в словаре нет ключа homeworks или homeworks не является list()"

/-- Python `str(error)` for a `parse_status` error. -/
def parseErrText : ParseError → String
  | .unknownVerdict => "Неожиданный статус домашки"
  | .badKeys => pyQuoted "Неверные ключи в словаре домашки"
  | .attrError ty => pyQuoted ty ++ " object has no attribute " ++ pyQuoted "get"

/-- The Telegram delivery oracle for one `send_message` call: the
library's `bot.send_message` either delivers or raises a
`telegram.error.TelegramError` (the library's contract for delivery
failures, and exactly what the source's `except` clause catches). -/
inductive DeliveryOutcome where
  | delivered
  | telegramError (errText : String)

/-- What a `send_message` call did: logged the success or logged the
failure.  Both are normal returns. -/
inductive SendResult where
  | sentOk (logText : String)
  | loggedFailure (logText : String)

/-- The raw `bot.send_message(...)` call: `.error` models a raised
`TelegramError`. -/
def bot_send (_message : String) (o : DeliveryOutcome) : Except String Unit :=
  match o with
  | .delivered => .ok ()
  | .telegramError e => .error e

/-- `send_message`: try the delivery; on `TelegramError`, log and return
normally.  The codomain is `Except String SendResult` so that a raising
path would be visible as `.error`; the theorem for C8 shows no input
reaches one. -/
def send_message (message : String) (o : DeliveryOutcome) : Except String SendResult :=
  match bot_send message o with
  | .ok _ => .ok (.sentOk ("Сообщение " ++ message ++ " отправлено"))
  | .error e =>
      .ok (.loggedFailure ("Неудачная отправка сообщения: " ++ message ++ " ошибка " ++ e))

/-- The loop state of `main`: the process-start `timestamp` and the three
mutable variables initialised to `None` before the `while True`. -/
structure PollState where
  timestamp : Int
  last_check_time : Option JValue
  last_homework_status : Option JValue
  last_telegram_message : Option String

/-- `last_check_time or timestamp` — the `from_date` of the next request
(Python `or` falls back on any falsy value, e.g. `None` or `0`). -/
def requestCursor (st : PollState) : JValue :=
  match st.last_check_time with
  | some v => if truthy v then v else .jint st.timestamp
  | none => .jint st.timestamp

/-- Python `message != last_homework_status` where the right side is
`None` or a stored JSON value: a string never equals `None` or a value of
another type, and string comparison otherwise. -/
def pyStrEqJ (s : String) : JValue → Bool
  | .jstr t => s == t
  | _ => false

/-- The guard of the send branch in `main` (truth of
`message != last_homework_status`). -/
def msgDiffers (message : String) : Option JValue → Bool
  | none => true
  | some v => !(pyStrEqJ message v)

/-- Lines 143–152 of `main`, entered when `check_response` returned a
truthy homework: advance `last_check_time` to the response's
`current_date` first, then format; on a "new" message store the raw
`homework['status']` and send.  The third component is the exception
text when a raise escapes this block. -/
def homeworkBranch (st : PollState) (response homework : JValue) :
    PollState × List String × Option String :=
  let st1 := { st with last_check_time := some (bracketGet response "current_date") }
  match parse_status homework with
  | .error e => (st1, [], some (parseErrText e))
  | .ok message =>
    if msgDiffers message st1.last_homework_status then
      ({ st1 with last_homework_status := some (bracketGet homework "status") },
       [message], none)
    else
      (st1, [], none)

/-- The `try:` block of one cycle of `main`: request, validate, and (for
a truthy homework) the homework branch.  Returns the state as mutated so
far, the messages passed to `send_message`, and the uncaught exception
text if one was raised. -/
def tryBody (st : PollState) (w : HttpOutcome) :
    PollState × List String × Option String :=
  match get_api_answer (requestCursor st) w with
  | .error e => (st, [], some (apiErrText e))
  | .ok response =>
    match check_response response with
    | .error e => (st, [], some (checkErrText e))
    | .ok none => (st, [], none)
    | .ok (some homework) =>
      if truthy homework then homeworkBranch st response homework
      else (st, [], none)

/-- `f'Сбой в работе программы: {error}'` — the diagnostic sent on error. -/
def failText (errText : String) : String := "Сбой в работе программы: " ++ errText

/-- Python `message != last_telegram_message` (`None` or a string). -/
def strDiffers (message : String) : Option String → Bool
  | none => true
  | some s => message != s

/-- The `except Exception` block of `main`: build the diagnostic, and if
it differs from `last_telegram_message`, send it and remember it. -/
def errorBranch (st : PollState) (errText : String) : PollState × List String :=
  let message := failText errText
  if strDiffers message st.last_telegram_message then
    ({ st with last_telegram_message := some message }, [message])
  else
    (st, [])

/-- Dispatch on whether the `try:` block raised. -/
def catchClause (st : PollState) : Option String → PollState × List String
  | some e => errorBranch st e
  | none => (st, [])

/-- Observable effects of a cycle: the API request with its `from_date`,
each `send_message` invocation, and the `finally: time.sleep`. -/
inductive Effect where
  | request (cursor : JValue)
  | send (message : String)
  | sleep (seconds : Nat)

/-- One full iteration of the `while True` loop: try-block, except-block,
then the unconditional sleep in `finally`. -/
def stepCycle (st : PollState) (w : HttpOutcome) : PollState × List Effect :=
  let r := tryBody st w
  let post := catchClause r.1 r.2.2
  (post.1,
   Effect.request (requestCursor st) ::
     ((r.2.1 ++ post.2).map Effect.send ++ [Effect.sleep RETRY_PERIOD]))

/-- The loop run over a finite prefix of cycles, collecting all effects. -/
def runLoop (st : PollState) : List HttpOutcome → PollState × List Effect
  | [] => (st, [])
  | w :: ws =>
    let r := stepCycle st w
    let rest := runLoop r.1 ws
    (rest.1, r.2 ++ rest.2)

/-- Number of `send_message` invocations in a trace. -/
def sendCount : List Effect → Nat
  | [] => 0
  | .send _ :: es => sendCount es + 1
  | _ :: es => sendCount es

/-- The messages passed to `send_message`, in order. -/
def sentMessages : List Effect → List String
  | [] => []
  | .send m :: es => m :: sentMessages es
  | _ :: es => sentMessages es

/-- Number of `time.sleep` calls in a trace. -/
def sleepCount : List Effect → Nat
  | [] => 0
  | .sleep _ :: es => sleepCount es + 1
  | _ :: es => sleepCount es

/-- The exception text a cycle raises, as a function of the network
oracle alone (no branch of the `try:` block lets the poll state influence
whether or what it raises). -/
def cycleError (w : HttpOutcome) : Option String :=
  match w with
  | .raised e => some e
  | .response status_code body =>
    if status_code != 200 then some (apiErrText .httpNot200)
    else
      match body with
      | .error _ => some (apiErrText .jsonDecode)
      | .ok response =>
        match check_response response with
        | .error e => some (checkErrText e)
        | .ok none => none
        | .ok (some homework) =>
          if truthy homework then
            match parse_status homework with
            | .error e => some (parseErrText e)
            | .ok _ => none
          else none

/-! Concrete fixtures used by the closed theorems below. -/

/-- The loop state right after `main`'s initialisation: process-start
timestamp `t`, all three cursor/deduplication variables `None`. -/
def initState (t : Int) : PollState := ⟨t, none, none, none⟩

/-- A well-formed homework record. -/
def hwApproved : JValue :=
  .jdict [("homework_name", .jstr "hw1"), ("status", .jstr "approved")]

/-- The verdict text mapped to `approved`. -/
def approvedText : String := "Работа проверена: ревьюеру всё понравилось. Ура!"

/-- A structurally valid response carrying one homework. -/
def goodBody : JValue :=
  .jdict [("current_date", .jint 100), ("homeworks", .jlist [hwApproved])]

/-- A cycle returning HTTP 200 with `goodBody`. -/
def wGood : HttpOutcome := .response 200 (.ok goodBody)

/-- A cycle answered with HTTP 404 — `get_api_answer` raises
`HttpCodeIsNot200`. -/
def wHttp404 : HttpOutcome := .response 404 (.ok goodBody)

/-- A state whose cursor was already advanced to 55 by an earlier cycle. -/
def stStale : PollState := ⟨1000, some (.jint 55), none, none⟩

/-- A valid response whose single homework record is the empty dict —
non-empty `homeworks`, but a falsy first record. -/
def bodyEmptyRecord : JValue :=
  .jdict [("current_date", .jint 100), ("homeworks", .jlist [.jdict []])]

/-- A cycle returning HTTP 200 with `bodyEmptyRecord`. -/
def wEmptyRecord : HttpOutcome := .response 200 (.ok bodyEmptyRecord)

/-- A cycle whose response has `current_date` present with value `0` and
an empty `homeworks` list. -/
def wZeroCursorEmpty : HttpOutcome :=
  .response 200 (.ok (.jdict [("current_date", .jint 0), ("homeworks", .jlist [])]))

/-- A state that has already notified the `HttpCodeIsNot200` diagnostic. -/
def stSeenHttpError : PollState :=
  ⟨1000, none, none, some (failText (apiErrText .httpNot200))⟩

/-- Substring containment, stated on the underlying character lists. -/
def strContains (s t : String) : Prop := t.data <:+: s.data

/-! Helper lemmas: traces, branches, and single-cycle structure. -/

theorem sentMessages_wrap (c : JValue) (l : List String) (n : Nat) :
    sentMessages (Effect.request c :: (l.map Effect.send ++ [Effect.sleep n])) = l := by
  induction l with
  | nil => rfl
  | cons m ms ih => simpa [sentMessages] using ih

theorem sendCount_wrap (c : JValue) (l : List String) (n : Nat) :
    sendCount (Effect.request c :: (l.map Effect.send ++ [Effect.sleep n])) = l.length := by
  induction l with
  | nil => rfl
  | cons m ms ih => simpa [sendCount] using ih

theorem sleepCount_wrap (c : JValue) (l : List String) (n : Nat) :
    sleepCount (Effect.request c :: (l.map Effect.send ++ [Effect.sleep n])) = 1 := by
  induction l with
  | nil => rfl
  | cons m ms ih => simpa [sleepCount] using ih

theorem sleepCount_append (a b : List Effect) :
    sleepCount (a ++ b) = sleepCount a + sleepCount b := by
  induction a with
  | nil => simp [sleepCount]
  | cons e es ih =>
    cases e with
    | request c => simp [sleepCount, ih]
    | send m => simp [sleepCount, ih]
    | sleep s =>
      simp [sleepCount, ih]
      omega

theorem errorBranch_last_tm (st : PollState) (e : String) :
    (errorBranch st e).1.last_telegram_message = some (failText e) := by
  simp only [errorBranch]
  split
  · rfl
  · next h =>
    cases hlt : st.last_telegram_message with
    | none => rw [hlt] at h; simp [strDiffers] at h
    | some s =>
      rw [hlt] at h
      simp only [strDiffers, bne_eq_false_iff_eq, Bool.not_eq_true] at h
      simp [hlt, h]

theorem errorBranch_sent (st : PollState) (e : String) :
    (errorBranch st e).2 =
      if strDiffers (failText e) st.last_telegram_message then [failText e] else [] := by
  simp only [errorBranch]
  split <;> simp_all

theorem errorBranch_last_check (st : PollState) (e : String) :
    (errorBranch st e).1.last_check_time = st.last_check_time := by
  simp only [errorBranch]
  split <;> rfl

-- The try-block raises independently of the poll state.
theorem tryBody_err (st : PollState) (w : HttpOutcome) :
    (tryBody st w).2.2 = cycleError w := by
  cases w with
  | raised e => rfl
  | response code body =>
    simp only [tryBody, cycleError, get_api_answer]
    cases hc : (code != 200) with
    | true => simp
    | false =>
      simp only [Bool.false_eq_true, if_false]
      cases body with
      | error u => rfl
      | ok response =>
        simp only
        cases hcr : check_response response with
        | error e => rfl
        | ok hwOpt =>
          cases hwOpt with
          | none => rfl
          | some hw =>
            simp only
            cases ht : truthy hw with
            | true =>
              simp only [if_true]
              simp only [homeworkBranch]
              cases parse_status hw with
              | error e => rfl
              | ok message =>
                simp only
                split <;> rfl
            | false => simp

theorem homeworkBranch_last_tm (st : PollState) (response homework : JValue) :
    (homeworkBranch st response homework).1.last_telegram_message
      = st.last_telegram_message := by
  simp only [homeworkBranch]
  cases parse_status homework with
  | error e => rfl
  | ok message =>
    simp only
    split <;> rfl

theorem homeworkBranch_last_check (st : PollState) (response homework : JValue) :
    (homeworkBranch st response homework).1.last_check_time
      = some (bracketGet response "current_date") := by
  simp only [homeworkBranch]
  cases parse_status homework with
  | error e => rfl
  | ok message =>
    simp only
    split <;> rfl

-- The try-block never writes the error-deduplication variable.
theorem tryBody_last_tm (st : PollState) (w : HttpOutcome) :
    (tryBody st w).1.last_telegram_message = st.last_telegram_message := by
  cases w with
  | raised e => rfl
  | response code body =>
    simp only [tryBody, get_api_answer]
    cases hc : (code != 200) with
    | true => simp
    | false =>
      simp only [Bool.false_eq_true, if_false]
      cases body with
      | error u => rfl
      | ok response =>
        simp only
        cases hcr : check_response response with
        | error e => rfl
        | ok hwOpt =>
          cases hwOpt with
          | none => rfl
          | some hw =>
            simp only
            cases ht : truthy hw with
            | true => simpa using homeworkBranch_last_tm st response hw
            | false => simp

-- A cycle either sent nothing from inside the try-block, or raised nothing.
theorem tryBody_sent_or (st : PollState) (w : HttpOutcome) :
    (tryBody st w).2.1 = [] ∨ (tryBody st w).2.2 = none := by
  cases w with
  | raised e => exact Or.inl rfl
  | response code body =>
    simp only [tryBody, get_api_answer]
    cases hc : (code != 200) with
    | true => simp
    | false =>
      simp only [Bool.false_eq_true, if_false]
      cases body with
      | error u => exact Or.inl rfl
      | ok response =>
        simp only
        cases hcr : check_response response with
        | error e => exact Or.inl rfl
        | ok hwOpt =>
          cases hwOpt with
          | none => exact Or.inl rfl
          | some hw =>
            simp only
            cases ht : truthy hw with
            | true =>
              simp only [if_true]
              simp only [homeworkBranch]
              cases parse_status hw with
              | error e => exact Or.inl rfl
              | ok message =>
                simp only
                split
                · exact Or.inr rfl
                · exact Or.inl rfl
            | false => simp

theorem tryBody_sent_of_err (st : PollState) (w : HttpOutcome) (e : String)
    (h : cycleError w = some e) : (tryBody st w).2.1 = [] := by
  rcases tryBody_sent_or st w with hs | hn
  · exact hs
  · rw [tryBody_err st w, h] at hn
    exact absurd hn (by simp)

theorem catchClause_last_tm (st : PollState) (e : String) :
    (catchClause st (some e)).1.last_telegram_message = some (failText e) :=
  errorBranch_last_tm st e

theorem catchClause_last_check (st : PollState) (o : Option String) :
    (catchClause st o).1.last_check_time = st.last_check_time := by
  cases o with
  | none => rfl
  | some e => exact errorBranch_last_check st e

theorem stepCycle_trace (st : PollState) (w : HttpOutcome) :
    (stepCycle st w).2 =
      Effect.request (requestCursor st) ::
        (((tryBody st w).2.1 ++ (catchClause (tryBody st w).1 (tryBody st w).2.2).2).map
            Effect.send
          ++ [Effect.sleep RETRY_PERIOD]) := rfl

theorem stepCycle_state (st : PollState) (w : HttpOutcome) :
    (stepCycle st w).1 = (catchClause (tryBody st w).1 (tryBody st w).2.2).1 := rfl

theorem stepCycle_head (st : PollState) (w : HttpOutcome) :
    ((stepCycle st w).2).head? = some (.request (requestCursor st)) := rfl

theorem stepCycle_sent (st : PollState) (w : HttpOutcome) :
    sentMessages (stepCycle st w).2 =
      (tryBody st w).2.1 ++ (catchClause (tryBody st w).1 (tryBody st w).2.2).2 := by
  rw [stepCycle_trace, sentMessages_wrap]

theorem sendCount_eq_length (l : List Effect) :
    sendCount l = (sentMessages l).length := by
  induction l with
  | nil => rfl
  | cons e es ih => cases e <;> simp [sendCount, sentMessages, ih]

theorem stepCycle_sleepCount (st : PollState) (w : HttpOutcome) :
    sleepCount (stepCycle st w).2 = 1 := by
  rw [stepCycle_trace, sleepCount_wrap]

-- An erroring cycle leaves the diagnostic in `last_telegram_message`.
theorem stepCycle_err_last_tm (st : PollState) (w : HttpOutcome) (e : String)
    (h : cycleError w = some e) :
    (stepCycle st w).1.last_telegram_message = some (failText e) := by
  rw [stepCycle_state]
  have ht := tryBody_err st w
  rw [h] at ht
  rw [ht]
  exact catchClause_last_tm _ e

-- A cycle that raises nothing leaves `last_telegram_message` untouched.
theorem stepCycle_ok_last_tm (st : PollState) (w : HttpOutcome)
    (h : cycleError w = none) :
    (stepCycle st w).1.last_telegram_message = st.last_telegram_message := by
  rw [stepCycle_state]
  have ht := tryBody_err st w
  rw [h] at ht
  rw [ht]
  exact tryBody_last_tm st w

-- The messages an erroring cycle sends: the diagnostic once if it is new,
-- nothing if it repeats the last sent diagnostic.
theorem stepCycle_err_sent (st : PollState) (w : HttpOutcome) (e : String)
    (h : cycleError w = some e) :
    sentMessages (stepCycle st w).2 =
      if strDiffers (failText e) st.last_telegram_message then [failText e] else [] := by
  rw [stepCycle_sent, tryBody_sent_of_err st w e h]
  have ht := tryBody_err st w
  rw [h] at ht
  rw [ht]
  show (errorBranch (tryBody st w).1 e).2 = _
  rw [errorBranch_sent, tryBody_last_tm]

theorem runLoop_sleepCount (st : PollState) (ws : List HttpOutcome) :
    sleepCount (runLoop st ws).2 = ws.length := by
  induction ws generalizing st with
  | nil => rfl
  | cons w ws ih =>
    simp only [runLoop, sleepCount_append, stepCycle_sleepCount, ih, List.length_cons]
    omega

theorem runLoop_ok_last_tm (st : PollState) (ws : List HttpOutcome)
    (h : ∀ w ∈ ws, cycleError w = none) :
    (runLoop st ws).1.last_telegram_message = st.last_telegram_message := by
  induction ws generalizing st with
  | nil => rfl
  | cons w ws ih =>
    simp only [runLoop]
    rw [ih _ (fun x hx => h x (List.mem_cons_of_mem w hx)),
        stepCycle_ok_last_tm st w (h w (List.mem_cons_self w ws))]

-- A non-empty string is truthy.
theorem truthy_jstr_of_ne (s : String) (h : s ≠ "") : truthy (.jstr s) = true := by
  simp only [truthy]
  rw [Bool.not_eq_true', ← Bool.not_eq_true, String.isEmpty_iff]
  exact h

/-- C1 (code_bug evaluation): the spec claims duplicate suppression — for
two consecutive cycles yielding the same verdict for the same homework
the Notifier is invoked exactly once.  The code compares the formatted
message against the stored raw `status` string (line 146 versus line
149), which can never be equal, so both cycles send: evaluated on two
identical `approved` cycles from the initial state, `send_message` is
invoked twice, both times with the same message. -/
theorem c1_duplicate_suppression_broken :
    sentMessages (runLoop (initState 1000) [wGood, wGood]).2
      = [fmtMessage "hw1" approvedText, fmtMessage "hw1" approvedText] ∧
    sendCount (runLoop (initState 1000) [wGood, wGood]).2 = 2 := ⟨rfl, rfl⟩

/-- C5 (code_bug evaluation): the claim says the validator raises
MissingCursor exactly when the key `current_date` is absent, and never
when it is present with any integer value, including 0.  The code tests
truthiness of the value, so a response carrying `current_date = 0` with a
valid homework list still raises the missing-cursor KeyError. -/
theorem c5_missing_cursor_on_present_zero :
    check_response (.jdict [("current_date", .jint 0), ("homeworks", .jlist [hwApproved])])
      = .error .missingCursor := rfl

/-- C2 counterexample: a structurally valid response with `current_date
= 100` and a non-empty `homeworks` whose first record is the empty dict —
the cycle raises nothing yet leaves `last_check_time` at its prior value
55 instead of advancing it to the response's 100. -/
theorem c2_counterexample :
    bracketGet bodyEmptyRecord "current_date" = .jint 100 ∧
    (stepCycle stStale wEmptyRecord).1.last_check_time = some (.jint 55) ∧
    some (JValue.jint 55) ≠ some (JValue.jint 100) ∧
    cycleError wEmptyRecord = none := by
  refine ⟨rfl, rfl, ?_, rfl⟩
  intro h
  injection h with h1
  injection h1 with h2
  exact absurd h2 (by decide)

/-- C3 counterexample: a response with `current_date` present (with value
0) and `homeworks` equal to the empty list — instead of the inert no-work
outcome, the validator raises, the Notifier is invoked once with the
diagnostic, and `last_telegram_message` changes from `none`. -/
theorem c3_counterexample :
    sendCount (stepCycle stStale wZeroCursorEmpty).2 = 1 ∧
    (stepCycle stStale wZeroCursorEmpty).1.last_telegram_message
      = some (failText (checkErrText .missingCursor)) ∧
    stStale.last_telegram_message = none := ⟨rfl, rfl, rfl⟩

/-- C6 counterexample: a mapping with `current_date` present and no
`homeworks` key at all — `check_response` raises the shape TypeError
instead of returning the no-homework signal. -/
theorem c6_counterexample :
    check_response (.jdict [("current_date", .jint 100)]) = .error .badHomeworks := rfl

/-- C7 counterexample: two consecutive cycles both raising
`HttpCodeIsNot200` with the same diagnostic, run from a state that had
already notified that exact diagnostic: the Notifier is invoked zero
times across the pair, not exactly once. -/
theorem c7_counterexample :
    cycleError wHttp404 = some (apiErrText .httpNot200) ∧
    sendCount (runLoop stSeenHttpError [wHttp404, wHttp404]).2 = 0 := ⟨rfl, rfl⟩

/-- C3 (amended): for every cycle whose response is a mapping with a
truthy `current_date` (present and nonzero) and `homeworks` equal to the
empty list, the validator returns the no-homework signal (not an error),
the Notifier is not invoked, and the poll state — `last_check_time`,
`last_homework_status` and `last_telegram_message` — is entirely
unchanged; the cycle's only effects are the request and the sleep. -/
theorem c3_no_work_inert (st : PollState) (fields : List (String × JValue))
    (hcd : truthy (dictGet fields "current_date") = true)
    (hhw : dictGet fields "homeworks" = .jlist []) :
    check_response (.jdict fields) = .ok none ∧
    stepCycle st (.response 200 (.ok (.jdict fields)))
      = (st, [.request (requestCursor st), .sleep RETRY_PERIOD]) := by
  have hcr : check_response (.jdict fields) = .ok none := by
    simp [check_response, hcd, hhw]
  refine ⟨hcr, ?_⟩
  have htb : tryBody st (.response 200 (.ok (.jdict fields))) = (st, [], none) := by
    simp [tryBody, get_api_answer, hcr]
  simp [stepCycle, htb, catchClause]

theorem c3_no_work_inert_witness :
    check_response (.jdict [("current_date", .jint 100), ("homeworks", .jlist [])])
      = .ok none ∧
    stepCycle stStale
        (.response 200 (.ok (.jdict [("current_date", .jint 100), ("homeworks", .jlist [])])))
      = (stStale, [.request (requestCursor stStale), .sleep RETRY_PERIOD]) :=
  c3_no_work_inert stStale [("current_date", .jint 100), ("homeworks", .jlist [])] rfl rfl

/-- C6 (amended): `homeworks` is not optional — for every decoded mapping
with a truthy `current_date`, the validator raises the shape TypeError
exactly when the `homeworks` value (absence read as `None`, as the source
cannot distinguish the two) is not a list; in particular a mapping with
no `homeworks` key raises rather than being treated as the no-homework
outcome. -/
theorem c6_homeworks_required (fields : List (String × JValue))
    (hcd : truthy (dictGet fields "current_date") = true) :
    check_response (.jdict fields) = .error .badHomeworks ↔
      ∀ items, dictGet fields "homeworks" ≠ .jlist items := by
  cases h : dictGet fields "homeworks" with
  | jnull => simp [check_response, hcd, h]
  | jint n => simp [check_response, hcd, h]
  | jstr s => simp [check_response, hcd, h]
  | jdict f2 => simp [check_response, hcd, h]
  | jlist items => cases items <;> simp [check_response, hcd, h]

theorem c6_homeworks_required_witness :
    check_response (.jdict [("current_date", .jint 7)]) = .error .badHomeworks :=
  (c6_homeworks_required [("current_date", .jint 7)] rfl).mpr
    (fun items h => by simp [dictGet] at h)

/-- C4: for every homework record with a non-empty `homework_name` and a
`status` that is a key of `HOMEWORK_VERDICTS`, `parse_status` returns a
message containing both the homework name and the exact localized text
mapped to that status; for every record with non-empty name and status
whose status is outside the table, it fails with the unknown-verdict
ValueError rather than substituting a default. -/
theorem c4_parse_status_contract (fields : List (String × JValue)) (name code : String)
    (hn : dictGet fields "homework_name" = .jstr name) (hne : name ≠ "")
    (hs : dictGet fields "status" = .jstr code) (hce : code ≠ "") :
    (∀ verdict, verdictLookup code = some verdict →
        parse_status (.jdict fields) = .ok (fmtMessage name verdict) ∧
        strContains (fmtMessage name verdict) name ∧
        strContains (fmtMessage name verdict) verdict) ∧
    (verdictLookup code = none →
        parse_status (.jdict fields) = .error .unknownVerdict) := by
  have htn := truthy_jstr_of_ne name hne
  have htc := truthy_jstr_of_ne code hce
  constructor
  · intro verdict hv
    refine ⟨?_, ?_, ?_⟩
    · simp [parse_status, hn, hs, htn, htc, hv, jrender]
    · show name.data <:+: (fmtMessage name verdict).data
      simp only [fmtMessage, String.data_append]
      exact ⟨"Изменился статус проверки работы \"".data,
             "\". ".data ++ verdict.data, by simp [List.append_assoc]⟩
    · show verdict.data <:+: (fmtMessage name verdict).data
      simp only [fmtMessage, String.data_append]
      exact ⟨"Изменился статус проверки работы \"".data ++ name.data ++ "\". ".data,
             [], by simp [List.append_assoc]⟩
  · intro hv
    simp [parse_status, hn, hs, htn, htc, hv]

theorem c4_parse_status_contract_witness :
    parse_status hwApproved = .ok (fmtMessage "hw1" approvedText) ∧
    strContains (fmtMessage "hw1" approvedText) "hw1" ∧
    strContains (fmtMessage "hw1" approvedText) approvedText :=
  (c4_parse_status_contract
      [("homework_name", .jstr "hw1"), ("status", .jstr "approved")]
      "hw1" "approved" rfl (by decide) rfl (by decide)).1 approvedText rfl

/-- C2 (amended): for every cycle whose response is a structurally valid
mapping with a truthy (nonzero) integer `current_date` and a non-empty
`homeworks` whose first record is truthy, the cycle sets
`last_check_time` to the response's `current_date` — regardless of
whether the verdict changed or the rest of the cycle raised — and the
next cycle's API request uses that value as its `from_date` cursor. -/
theorem c2_cursor_advance (st : PollState) (fields : List (String × JValue))
    (cd : Int) (hw : JValue) (rest : List JValue)
    (hcd : dictGet fields "current_date" = .jint cd) (hcd0 : cd ≠ 0)
    (hhw : dictGet fields "homeworks" = .jlist (hw :: rest))
    (ht : truthy hw = true) :
    (stepCycle st (.response 200 (.ok (.jdict fields)))).1.last_check_time
      = some (.jint cd) ∧
    ∀ w2, ((stepCycle (stepCycle st (.response 200 (.ok (.jdict fields)))).1 w2).2).head?
      = some (.request (.jint cd)) := by
  have hcd' : truthy (JValue.jint cd) = true := by simp [truthy, hcd0]
  have hcr : check_response (.jdict fields) = .ok (some hw) := by
    simp [check_response, hcd, hcd', hhw]
  have htb : tryBody st (.response 200 (.ok (.jdict fields)))
      = homeworkBranch st (.jdict fields) hw := by
    simp [tryBody, get_api_answer, hcr, ht]
  have hlc : (stepCycle st (.response 200 (.ok (.jdict fields)))).1.last_check_time
      = some (.jint cd) := by
    rw [stepCycle_state, catchClause_last_check, htb, homeworkBranch_last_check]
    simp [bracketGet, hcd]
  refine ⟨hlc, ?_⟩
  intro w2
  rw [stepCycle_head]
  congr 1
  simp [requestCursor, hlc, hcd']

theorem c2_cursor_advance_witness :
    (stepCycle (initState 1000) wGood).1.last_check_time = some (.jint 100) :=
  (c2_cursor_advance (initState 1000)
      [("current_date", .jint 100), ("homeworks", .jlist [hwApproved])]
      100 hwApproved [] rfl (by decide) rfl rfl).1

-- The diagnostic prefix makes `failText` injective.
theorem failText_inj (a b : String) (h : failText a = failText b) : a = b := by
  have hd := congrArg String.data h
  simp only [failText, String.data_append] at hd
  have h2 := List.append_cancel_left hd
  cases a; cases b; exact congrArg String.mk h2

/-- C7 (amended): across two consecutive error cycles the diagnostic is
notified at most once — given the first cycle's diagnostic differs from
the previously notified error text (e.g. from the initial state), the
Notifier fires exactly once for two identical diagnostics (the stated
claim read from a fresh state); and whenever the second cycle's
diagnostic differs from the first, the Notifier fires for it again and
`last_telegram_message` is updated to the new diagnostic.  When the
shared diagnostic equals the one already recorded before the pair, both
sends are suppressed (the counterexample), which is the only deviation
from the claim as written. -/
theorem c7_error_dedup (st : PollState) (w1 w2 : HttpOutcome) (e1 e2 : String)
    (h1 : cycleError w1 = some e1)
    (h2 : cycleError w2 = some e2) :
    (e1 = e2 → st.last_telegram_message ≠ some (failText e1) →
       sendCount (stepCycle st w1).2
         + sendCount (stepCycle (stepCycle st w1).1 w2).2 = 1) ∧
    (e1 ≠ e2 →
       sentMessages (stepCycle (stepCycle st w1).1 w2).2 = [failText e2] ∧
       (stepCycle (stepCycle st w1).1 w2).1.last_telegram_message
         = some (failText e2)) := by
  have hs1 : (stepCycle st w1).1.last_telegram_message = some (failText e1) :=
    stepCycle_err_last_tm st w1 e1 h1
  constructor
  · intro he hfresh
    subst he
    have hnew : strDiffers (failText e1) st.last_telegram_message = true := by
      cases hl : st.last_telegram_message with
      | none => rfl
      | some s =>
        rw [hl] at hfresh
        have : failText e1 ≠ s := fun hh => hfresh (by rw [hh])
        simpa [strDiffers, bne_iff_ne] using this
    have hm1 : sentMessages (stepCycle st w1).2 = [failText e1] := by
      rw [stepCycle_err_sent st w1 e1 h1, hnew]
      rfl
    have hm2 : sentMessages (stepCycle (stepCycle st w1).1 w2).2 = [] := by
      rw [stepCycle_err_sent _ w2 e1 h2, hs1]
      simp [strDiffers]
    rw [sendCount_eq_length, sendCount_eq_length, hm1, hm2]
    rfl
  · intro hne
    have hdiff : strDiffers (failText e2) (some (failText e1)) = true := by
      have : failText e2 ≠ failText e1 := fun hh => hne (failText_inj e1 e2 hh.symm)
      simpa [strDiffers, bne_iff_ne] using this
    constructor
    · rw [stepCycle_err_sent _ w2 e2 h2, hs1, hdiff]
      rfl
    · exact stepCycle_err_last_tm _ w2 e2 h2

theorem c7_error_dedup_witness :
    sendCount (stepCycle (initState 1000) wHttp404).2
      + sendCount (stepCycle (stepCycle (initState 1000) wHttp404).1 wHttp404).2 = 1 :=
  (c7_error_dedup (initState 1000) wHttp404 wHttp404
      (apiErrText .httpNot200) (apiErrText .httpNot200) rfl rfl).1 rfl
    (fun h => nomatch h)

/-- C8: the Notifier never raises on delivery failure — for every message
and every outcome of the chat-delivery call (delivered, or the library's
`TelegramError`, its contract for a delivery failure), `send_message`
returns normally, logging the success or the failure; no outcome reaches
the `.error` (raising) side of the codomain, so a delivery failure never
aborts the poll loop. -/
theorem c8_send_message_never_raises (message : String) (o : DeliveryOutcome) :
    send_message message o =
      .ok (match o with
        | .delivered => .sentOk ("Сообщение " ++ message ++ " отправлено")
        | .telegramError e =>
            .loggedFailure
              ("Неудачная отправка сообщения: " ++ message ++ " ошибка " ++ e)) := by
  cases o <;> rfl

/-- C9: the loop never terminates on a per-cycle error and always sleeps
— for every start state and every finite sequence of cycle outcomes
(errors at the API, validation, formatting or notification stage
included), the loop runs one fixed-duration sleep per cycle and proceeds
through all cycles, and every single cycle's effect trace ends with the
sleep: no per-cycle error propagates out of the loop. -/
theorem c9_loop_always_sleeps (st : PollState) (ws : List HttpOutcome) :
    sleepCount (runLoop st ws).2 = ws.length ∧
    ∀ w, ∃ pre, (stepCycle st w).2 = pre ++ [Effect.sleep RETRY_PERIOD] := by
  refine ⟨runLoop_sleepCount st ws, ?_⟩
  intro w
  refine ⟨Effect.request (requestCursor st) ::
    ((tryBody st w).2.1 ++ (catchClause (tryBody st w).1 (tryBody st w).2.2).2).map
      Effect.send, ?_⟩
  rw [stepCycle_trace]
  rfl

/-- C10: the error-deduplication state `last_telegram_message` is written
only by the error branch and is never reset by a successful or no-work
cycle; therefore in every run where an error with diagnostic `e` is
notified, followed by any number of non-raising cycles, followed by an
error with the identical diagnostic, the recurrence is suppressed — the
final error cycle sends nothing. -/
theorem c10_error_state_persists (st : PollState) (w1 : HttpOutcome) (e : String)
    (mids : List HttpOutcome) (w2 : HttpOutcome)
    (h1 : cycleError w1 = some e)
    (hm : ∀ w ∈ mids, cycleError w = none)
    (h2 : cycleError w2 = some e) :
    (stepCycle st w1).1.last_telegram_message = some (failText e) ∧
    (runLoop (stepCycle st w1).1 mids).1.last_telegram_message = some (failText e) ∧
    sentMessages (stepCycle (runLoop (stepCycle st w1).1 mids).1 w2).2 = [] := by
  have hs1 := stepCycle_err_last_tm st w1 e h1
  have hs2 : (runLoop (stepCycle st w1).1 mids).1.last_telegram_message
      = some (failText e) := by
    rw [runLoop_ok_last_tm _ mids hm, hs1]
  refine ⟨hs1, hs2, ?_⟩
  rw [stepCycle_err_sent _ w2 e h2, hs2]
  simp [strDiffers]

theorem c10_error_state_persists_witness :
    sentMessages
        (stepCycle (runLoop (stepCycle (initState 1000) wHttp404).1 [wGood]).1 wHttp404).2
      = [] :=
  (c10_error_state_persists (initState 1000) wHttp404 (apiErrText .httpNot200)
      [wGood] wHttp404 rfl
      (by intro w hw; simp at hw; subst hw; rfl) rfl).2.2
